import Mathlib

/-!
Shallow embedding of the Heimdall configuration model
(`src/config/database.rs`, `src/config/server.rs`, `src/config/mod.rs`,
`src/lib.rs`).

Serde's self-describing data model is embedded as the inductive `Value`;
the derived `Serialize`/`Deserialize` implementations of each
configuration struct are translated field-for-field, in declaration
order, following serde's derive semantics for plain structs: a struct is
a map of field names, unknown entries are ignored, a missing `Option`
field becomes `none`, and any other missing field is a
`missingField` error (the derives carry no `serde(default)` attribute).
Machine integers are modelled as `Nat`/`Int` with explicit range checks
on deserialization. `std::net::IpAddr` is an opaque leaf of the format:
the standard library guarantees its serialization round-trips, so it is
carried as a primitive `Value` constructor.
-/

/-- Embedding of `std::net::IpAddr`: a V4 address is four `u8` octets, a
V6 address is eight `u16` segments (modelled as `Nat`). -/
inductive IpAddr where
  | v4 (a b c d : Nat)
  | v6 (a b c d e f g h : Nat)
deriving DecidableEq, Repr

/-- The self-describing serialization value tree (serde data model). -/
inductive Value where
  | vStr (s : String)
  | vNat (n : Nat)
  | vInt (i : Int)
  | vBool (b : Bool)
  | vNull
  | vIp (ip : IpAddr)
  | vMap (fields : List (String × Value))

/-- Deserialization errors surfaced by serde's derived impls. -/
inductive DeError where
  | unknownVariant (got : String) (expected : List String)
  | missingField (field : String)
  | invalidType (expected : String)
deriving DecidableEq, Repr

/-- Look up a required struct field in the serialized map; a missing key is
serde's `missing field` error. -/
def getField (fs : List (String × Value)) (name : String) :
    Except DeError Value :=
  match fs.lookup name with
  | some v => Except.ok v
  | none => Except.error (DeError.missingField name)

/-- Deserialize a `String` field. -/
def deStr : Value → Except DeError String
  | Value.vStr s => Except.ok s
  | _ => Except.error (DeError.invalidType "string")

/-- Deserialize a `u16` field (range-checked). -/
def deU16 : Value → Except DeError Nat
  | Value.vNat n =>
      if n < 2 ^ 16 then Except.ok n
      else Except.error (DeError.invalidType "u16")
  | _ => Except.error (DeError.invalidType "u16")

/-- Deserialize a `u32` field (range-checked). -/
def deU32 : Value → Except DeError Nat
  | Value.vNat n =>
      if n < 2 ^ 32 then Except.ok n
      else Except.error (DeError.invalidType "u32")
  | _ => Except.error (DeError.invalidType "u32")

/-- Deserialize an `i64` field (range-checked). -/
def deI64 : Value → Except DeError Int
  | Value.vInt i =>
      if -(2 ^ 63) ≤ i ∧ i < 2 ^ 63 then Except.ok i
      else Except.error (DeError.invalidType "i64")
  | _ => Except.error (DeError.invalidType "i64")

/-- Deserialize a `bool` field. -/
def deBool : Value → Except DeError Bool
  | Value.vBool b => Except.ok b
  | _ => Except.error (DeError.invalidType "bool")

/-- Deserialize an `IpAddr` field (opaque std leaf). -/
def deIp : Value → Except DeError IpAddr
  | Value.vIp ip => Except.ok ip
  | _ => Except.error (DeError.invalidType "IP address")

/-- Deserialize an `Option<String>` struct field: serde's derive maps an
absent key and an explicit null to `None`. -/
def deOptStr (fs : List (String × Value)) (name : String) :
    Except DeError (Option String) :=
  match fs.lookup name with
  | none => Except.ok none
  | some Value.vNull => Except.ok none
  | some (Value.vStr s) => Except.ok (some s)
  | some _ => Except.error (DeError.invalidType "string or null")

/-- Deserialize an `Option<i64>` struct field: serde's derive maps an
absent key and an explicit null to `None`. -/
def deOptI64 (fs : List (String × Value)) (name : String) :
    Except DeError (Option Int) :=
  match fs.lookup name with
  | none => Except.ok none
  | some Value.vNull => Except.ok none
  | some (Value.vInt i) =>
      if -(2 ^ 63) ≤ i ∧ i < 2 ^ 63 then Except.ok (some i)
      else Except.error (DeError.invalidType "i64 or null")
  | some _ => Except.error (DeError.invalidType "i64 or null")

/-- `DatabaseType` from `src/config/database.rs`: the two variants are
spelled `Postgres` and `Sqllite` in the source. -/
inductive DatabaseType where
  | Postgres
  | Sqllite
deriving DecidableEq, Repr

/-- `#[default]` marks `Sqllite` in the source. -/
def DatabaseType.default : DatabaseType := DatabaseType.Sqllite

/-- The variant-name list the derived deserializer reports in its
unknown-variant error. -/
def DatabaseType.variants : List String := ["Postgres", "Sqllite"]

/-- Derived `Serialize` for `DatabaseType`: a unit variant serializes to
its name. -/
def DatabaseType.ser : DatabaseType → Value
  | DatabaseType.Postgres => Value.vStr "Postgres"
  | DatabaseType.Sqllite => Value.vStr "Sqllite"

/-- Derived `Deserialize` for `DatabaseType`: a string equal to a variant
name yields that variant, any other string is an unknown-variant error,
a non-string is a type error. -/
def DatabaseType.deser : Value → Except DeError DatabaseType
  | Value.vStr s =>
      if s = "Postgres" then Except.ok DatabaseType.Postgres
      else if s = "Sqllite" then Except.ok DatabaseType.Sqllite
      else Except.error (DeError.unknownVariant s DatabaseType.variants)
  | _ => Except.error (DeError.invalidType "variant identifier")

/-- `DatabaseConfig` from `src/config/database.rs`. -/
structure DatabaseConfig where
  database_type : DatabaseType
  host : String
  port : Nat
  username : String
  password : Option String
deriving DecidableEq, Repr

/-- `impl Default for DatabaseConfig`. -/
def DatabaseConfig.default : DatabaseConfig :=
  { database_type := DatabaseType.default
    host := "localhost"
    port := 5432
    username := "development-user"
    password := some "development-password" }

/-- Derived `Serialize` for `DatabaseConfig`: field-for-field in
declaration order; `Some` serializes to the inner value, `None` to null. -/
def DatabaseConfig.ser (c : DatabaseConfig) : Value :=
  Value.vMap
    [("database_type", DatabaseType.ser c.database_type),
     ("host", Value.vStr c.host),
     ("port", Value.vNat c.port),
     ("username", Value.vStr c.username),
     ("password", match c.password with
                  | some s => Value.vStr s
                  | none => Value.vNull)]

/-- Derived `Deserialize` for `DatabaseConfig`. -/
def DatabaseConfig.deser : Value → Except DeError DatabaseConfig
  | Value.vMap fs => do
      let database_type ← DatabaseType.deser (← getField fs "database_type")
      let host ← deStr (← getField fs "host")
      let port ← deU16 (← getField fs "port")
      let username ← deStr (← getField fs "username")
      let password ← deOptStr fs "password"
      Except.ok { database_type, host, port, username, password }
  | _ => Except.error (DeError.invalidType "struct DatabaseConfig")

/-- `ConnectionPoolConfig` from `src/config/database.rs` (the source
spells the field `test_before_aquire`). -/
structure ConnectionPoolConfig where
  min_connections : Nat
  max_connections : Nat
  max_lifetime_seconds : Int
  connection_timeout_ms : Int
  idle_timeout_ms : Int
  test_before_aquire : Bool
  test_on_borrow : Bool
  max_connection_age_seconds : Option Int
deriving DecidableEq, Repr

/-- `impl Default for ConnectionPoolConfig`. -/
def ConnectionPoolConfig.default : ConnectionPoolConfig :=
  { min_connections := 30
    max_connections := 100
    max_lifetime_seconds := 150
    connection_timeout_ms := 50
    idle_timeout_ms := 300
    test_before_aquire := false
    test_on_borrow := false
    max_connection_age_seconds := none }

/-- Derived `Serialize` for `ConnectionPoolConfig`. -/
def ConnectionPoolConfig.ser (c : ConnectionPoolConfig) : Value :=
  Value.vMap
    [("min_connections", Value.vNat c.min_connections),
     ("max_connections", Value.vNat c.max_connections),
     ("max_lifetime_seconds", Value.vInt c.max_lifetime_seconds),
     ("connection_timeout_ms", Value.vInt c.connection_timeout_ms),
     ("idle_timeout_ms", Value.vInt c.idle_timeout_ms),
     ("test_before_aquire", Value.vBool c.test_before_aquire),
     ("test_on_borrow", Value.vBool c.test_on_borrow),
     ("max_connection_age_seconds",
        match c.max_connection_age_seconds with
        | some i => Value.vInt i
        | none => Value.vNull)]

/-- Derived `Deserialize` for `ConnectionPoolConfig`: every non-`Option`
field is required (there is no `serde(default)` on the struct), the sole
`Option` field defaults to `None` when absent. -/
def ConnectionPoolConfig.deser : Value → Except DeError ConnectionPoolConfig
  | Value.vMap fs => do
      let min_connections ← deU32 (← getField fs "min_connections")
      let max_connections ← deU32 (← getField fs "max_connections")
      let max_lifetime_seconds ← deI64 (← getField fs "max_lifetime_seconds")
      let connection_timeout_ms ← deI64 (← getField fs "connection_timeout_ms")
      let idle_timeout_ms ← deI64 (← getField fs "idle_timeout_ms")
      let test_before_aquire ← deBool (← getField fs "test_before_aquire")
      let test_on_borrow ← deBool (← getField fs "test_on_borrow")
      let max_connection_age_seconds ← deOptI64 fs "max_connection_age_seconds"
      Except.ok { min_connections, max_connections, max_lifetime_seconds,
                  connection_timeout_ms, idle_timeout_ms, test_before_aquire,
                  test_on_borrow, max_connection_age_seconds }
  | _ => Except.error (DeError.invalidType "struct ConnectionPoolConfig")

/-- `ServerConfig` from `src/config/server.rs`. -/
structure ServerConfig where
  ip : IpAddr
  port : Nat
deriving DecidableEq, Repr

/-- `impl Default for ServerConfig`. -/
def ServerConfig.default : ServerConfig :=
  { ip := IpAddr.v4 127 0 0 1
    port := 3000 }

/-- Derived `Serialize` for `ServerConfig`. -/
def ServerConfig.ser (c : ServerConfig) : Value :=
  Value.vMap [("ip", Value.vIp c.ip), ("port", Value.vNat c.port)]

/-- Derived `Deserialize` for `ServerConfig`. -/
def ServerConfig.deser : Value → Except DeError ServerConfig
  | Value.vMap fs => do
      let ip ← deIp (← getField fs "ip")
      let port ← deU16 (← getField fs "port")
      Except.ok { ip, port }
  | _ => Except.error (DeError.invalidType "struct ServerConfig")

/-- `AppConfig` from `src/config/mod.rs`. -/
structure AppConfig where
  database_config : DatabaseConfig
  server_config : ServerConfig
deriving DecidableEq, Repr

/-- `impl Default for AppConfig`. -/
def AppConfig.default : AppConfig :=
  { database_config := DatabaseConfig.default
    server_config := ServerConfig.default }

/-- Derived `Serialize` for `AppConfig`. -/
def AppConfig.ser (c : AppConfig) : Value :=
  Value.vMap
    [("database_config", DatabaseConfig.ser c.database_config),
     ("server_config", ServerConfig.ser c.server_config)]

/-- Derived `Deserialize` for `AppConfig`. -/
def AppConfig.deser : Value → Except DeError AppConfig
  | Value.vMap fs => do
      let database_config ← DatabaseConfig.deser (← getField fs "database_config")
      let server_config ← ServerConfig.deser (← getField fs "server_config")
      Except.ok { database_config, server_config }
  | _ => Except.error (DeError.invalidType "struct AppConfig")

/-- Modelled from the spec: `AppState` is declared in `src/lib.rs` but its
module file is outside the examined scope; per the spec it is a
process-wide state container built once from the immutable `AppConfig`
by pure value construction. -/
structure AppState where
  app_config : AppConfig

/-- Modelled from the spec: `AppState::new` constructs the state container
from the configuration; pure, never fails. -/
def AppState.new (app_config : AppConfig) : AppState :=
  { app_config }

/-- `start_service` from `src/lib.rs`: builds the application state and
returns `Ok(())` (the `async` wrapper does nothing else). -/
def start_service (app_config : AppConfig) : Except String Unit :=
  let _app_state := AppState.new app_config
  Except.ok ()

/-- Models a fresh call to `AppConfig::default()` at each invocation site
(used to state determinism of default construction). -/
def defaultAppConfigCall : Unit → AppConfig :=
  fun _ => AppConfig.default

/-- C1: serializing the default `AppConfig` and deserializing the result
yields a value equal to the default `AppConfig`. -/
theorem C1_default_appconfig_roundtrip :
    AppConfig.deser (AppConfig.ser AppConfig.default) =
      Except.ok AppConfig.default := rfl

/-- C4: the default `DatabaseConfig` is (Sqllite backend — the variant the
spec calls SQLite — "localhost", 5432, "development-user",
Some "development-password"). -/
theorem C4_default_database_config :
    DatabaseConfig.default =
      { database_type := DatabaseType.Sqllite
        host := "localhost"
        port := 5432
        username := "development-user"
        password := some "development-password" } := rfl

/-- C5: the default `ServerConfig` is (127.0.0.1, 3000) and the default
`AppConfig` is exactly the default `DatabaseConfig` paired with the
default `ServerConfig`. -/
theorem C5_default_server_and_app_config :
    ServerConfig.default = { ip := IpAddr.v4 127 0 0 1, port := 3000 } ∧
    AppConfig.default =
      { database_config := DatabaseConfig.default
        server_config := ServerConfig.default } := by
  constructor
  · rfl
  · rfl

/-- C6: the default `ConnectionPoolConfig` has the documented field values
and satisfies `min_connections ≤ max_connections`. -/
theorem C6_default_connection_pool_config :
    ConnectionPoolConfig.default.min_connections = 30 ∧
    ConnectionPoolConfig.default.max_connections = 100 ∧
    ConnectionPoolConfig.default.max_lifetime_seconds = 150 ∧
    ConnectionPoolConfig.default.connection_timeout_ms = 50 ∧
    ConnectionPoolConfig.default.idle_timeout_ms = 300 ∧
    ConnectionPoolConfig.default.test_before_aquire = false ∧
    ConnectionPoolConfig.default.test_on_borrow = false ∧
    ConnectionPoolConfig.default.max_connection_age_seconds = none ∧
    ConnectionPoolConfig.default.min_connections ≤
      ConnectionPoolConfig.default.max_connections := by
  decide

/-- C7: `start_service` applied to the default `AppConfig` returns the Ok
unit result. -/
theorem C7_start_service_default_ok :
    start_service AppConfig.default = Except.ok () := rfl

/-- C8: default construction is deterministic: any two independent calls
of the default `AppConfig` constructor yield equal values. -/
theorem C8_default_construction_deterministic :
    ∀ u v : Unit, defaultAppConfigCall u = defaultAppConfigCall v := by
  intro u v
  rfl

/-- C10: `start_service` returns the Ok unit result for every `AppConfig`
input; its error branch is never taken. -/
theorem C10_start_service_total_ok :
    ∀ c : AppConfig, start_service c = Except.ok () := by
  intro c
  rfl

/-- C2 counterexample: the claim admits exactly {"Postgres", "SQLite"};
but the code accepts "Sqllite" — a value outside that set — and rejects
"SQLite" itself with an unknown-variant error. -/
theorem C2_counterexample :
    DatabaseType.deser (Value.vStr "Sqllite") =
      Except.ok DatabaseType.Sqllite ∧
    DatabaseType.deser (Value.vStr "SQLite") =
      Except.error (DeError.unknownVariant "SQLite" DatabaseType.variants) :=
  ⟨rfl, rfl⟩

/-- C2 (amended): deserializing "Postgres" yields the Postgres variant,
and every string outside {"Postgres", "Sqllite"} (the source's spelling
of the SQLite variant), for example "MySQL", fails with an
unknown-variant error. -/
theorem C2_amended_unknown_variant :
    DatabaseType.deser (Value.vStr "Postgres") =
      Except.ok DatabaseType.Postgres ∧
    ∀ s : String, s ≠ "Postgres" → s ≠ "Sqllite" →
      DatabaseType.deser (Value.vStr s) =
        Except.error (DeError.unknownVariant s DatabaseType.variants) := by
  refine ⟨rfl, ?_⟩
  intro s h1 h2
  simp [DatabaseType.deser, h1, h2]

/-- C2 witness: the amended theorem at the concrete input "MySQL". -/
theorem C2_amended_unknown_variant_witness :
    DatabaseType.deser (Value.vStr "MySQL") =
      Except.error (DeError.unknownVariant "MySQL" DatabaseType.variants) :=
  C2_amended_unknown_variant.2 "MySQL" (by decide) (by decide)

/-- C3 counterexample: an input omitting every field (so in particular
omitting `max_connection_age_seconds` "and possibly other fields") does
not succeed with the documented defaults — it fails with a
missing-field error on the first required field. -/
theorem C3_counterexample :
    ConnectionPoolConfig.deser (Value.vMap []) =
      Except.error (DeError.missingField "min_connections") ∧
    ConnectionPoolConfig.deser (Value.vMap []) ≠
      Except.ok ConnectionPoolConfig.default :=
  ⟨rfl, fun h => Except.noConfusion h⟩

/-- A successful `Except` bind splits into a successful first step and a
successful continuation. -/
theorem exceptBindOk {ε α β : Type} {x : Except ε α} {f : α → Except ε β} {b : β}
    (h : x >>= f = Except.ok b) : ∃ a, x = Except.ok a ∧ f a = Except.ok b := by
  cases x with
  | ok a => exact ⟨a, rfl, h⟩
  | error e =>
      have he : (Except.error e : Except ε α) >>= f = Except.error e := rfl
      rw [he] at h
      exact Except.noConfusion h

/-- Binding a successful `Except` computation runs the continuation. -/
theorem exceptOkBind {ε α β : Type} (a : α) (f : α → Except ε β) :
    (Except.ok a : Except ε α) >>= f = f a := rfl

/-- Binding a failed `Except` computation propagates the error. -/
theorem exceptErrorBind {ε α β : Type} (e : ε) (f : α → Except ε β) :
    (Except.error e : Except ε α) >>= f = Except.error e := rfl

/-- A successful required-field lookup pins the serialized map entry. -/
theorem getField_ok {fs : List (String × Value)} {n : String} {v : Value}
    (h : getField fs n = Except.ok v) : fs.lookup n = some v := by
  cases hl : fs.lookup n with
  | none =>
      unfold getField at h
      rw [hl] at h
      exact Except.noConfusion h
  | some w =>
      unfold getField at h
      rw [hl] at h
      simp only [Except.ok.injEq] at h
      rw [h]

/-- C3 (amended): an input supplying every non-optional field with a
well-typed, in-range value and omitting `max_connection_age_seconds`
deserializes successfully, yielding `None` for
`max_connection_age_seconds` and the supplied values for the other
fields; an input from which any non-optional field is absent never
deserializes successfully — one omitting `min_connections` fails with
the missing-field error naming `min_connections` — so the documented
defaults are not applied to absent non-optional fields. -/
theorem C3_amended_defaults_not_applied :
    (∀ (fs : List (String × Value)) (a b : Nat) (c d e : Int) (p q : Bool),
      fs.lookup "min_connections" = some (Value.vNat a) → a < 2 ^ 32 →
      fs.lookup "max_connections" = some (Value.vNat b) → b < 2 ^ 32 →
      fs.lookup "max_lifetime_seconds" = some (Value.vInt c) →
        -(2 ^ 63) ≤ c ∧ c < 2 ^ 63 →
      fs.lookup "connection_timeout_ms" = some (Value.vInt d) →
        -(2 ^ 63) ≤ d ∧ d < 2 ^ 63 →
      fs.lookup "idle_timeout_ms" = some (Value.vInt e) →
        -(2 ^ 63) ≤ e ∧ e < 2 ^ 63 →
      fs.lookup "test_before_aquire" = some (Value.vBool p) →
      fs.lookup "test_on_borrow" = some (Value.vBool q) →
      fs.lookup "max_connection_age_seconds" = none →
      ConnectionPoolConfig.deser (Value.vMap fs) =
        Except.ok { min_connections := a, max_connections := b,
                    max_lifetime_seconds := c, connection_timeout_ms := d,
                    idle_timeout_ms := e, test_before_aquire := p,
                    test_on_borrow := q, max_connection_age_seconds := none }) ∧
    (∀ (fs : List (String × Value)) (k : ConnectionPoolConfig),
      (fs.lookup "min_connections" = none ∨
       fs.lookup "max_connections" = none ∨
       fs.lookup "max_lifetime_seconds" = none ∨
       fs.lookup "connection_timeout_ms" = none ∨
       fs.lookup "idle_timeout_ms" = none ∨
       fs.lookup "test_before_aquire" = none ∨
       fs.lookup "test_on_borrow" = none) →
      ConnectionPoolConfig.deser (Value.vMap fs) ≠ Except.ok k) ∧
    (∀ fs : List (String × Value),
      fs.lookup "min_connections" = none →
      ConnectionPoolConfig.deser (Value.vMap fs) =
        Except.error (DeError.missingField "min_connections")) := by
  refine ⟨?_, ?_, ?_⟩
  · intro fs a b c d e p q h1 r1 h2 r2 h3 r3 h4 r4 h5 r5 h6 h7 h8
    norm_num at r1 r2 r3 r4 r5
    simp [ConnectionPoolConfig.deser, getField, deU32, deI64, deBool, deOptI64,
          h1, h2, h3, h4, h5, h6, h7, h8, r1, r2, r3, r4, r5, exceptOkBind]
  · intro fs k hmiss hok
    simp only [ConnectionPoolConfig.deser] at hok
    obtain ⟨v1, hf1, hok⟩ := exceptBindOk hok
    obtain ⟨m1, hm1, hok⟩ := exceptBindOk hok
    obtain ⟨v2, hf2, hok⟩ := exceptBindOk hok
    obtain ⟨m2, hm2, hok⟩ := exceptBindOk hok
    obtain ⟨v3, hf3, hok⟩ := exceptBindOk hok
    obtain ⟨m3, hm3, hok⟩ := exceptBindOk hok
    obtain ⟨v4, hf4, hok⟩ := exceptBindOk hok
    obtain ⟨m4, hm4, hok⟩ := exceptBindOk hok
    obtain ⟨v5, hf5, hok⟩ := exceptBindOk hok
    obtain ⟨m5, hm5, hok⟩ := exceptBindOk hok
    obtain ⟨v6, hf6, hok⟩ := exceptBindOk hok
    obtain ⟨m6, hm6, hok⟩ := exceptBindOk hok
    obtain ⟨v7, hf7, hok⟩ := exceptBindOk hok
    rcases hmiss with h | h | h | h | h | h | h
    · rw [getField_ok hf1] at h
      exact Option.noConfusion h
    · rw [getField_ok hf2] at h
      exact Option.noConfusion h
    · rw [getField_ok hf3] at h
      exact Option.noConfusion h
    · rw [getField_ok hf4] at h
      exact Option.noConfusion h
    · rw [getField_ok hf5] at h
      exact Option.noConfusion h
    · rw [getField_ok hf6] at h
      exact Option.noConfusion h
    · rw [getField_ok hf7] at h
      exact Option.noConfusion h
  · intro fs h
    simp [ConnectionPoolConfig.deser, getField, h, exceptErrorBind]

/-- C3 witness: the amended theorem at concrete inputs — the canonical
seven-field map carrying the default values deserializes to the default
configuration with `None` for the omitted optional field, and a map
omitting `min_connections` never succeeds and yields its missing-field
error. -/
theorem C3_amended_defaults_not_applied_witness :
    ConnectionPoolConfig.deser (Value.vMap
      [("min_connections", Value.vNat 30),
       ("max_connections", Value.vNat 100),
       ("max_lifetime_seconds", Value.vInt 150),
       ("connection_timeout_ms", Value.vInt 50),
       ("idle_timeout_ms", Value.vInt 300),
       ("test_before_aquire", Value.vBool false),
       ("test_on_borrow", Value.vBool false)]) =
      Except.ok ConnectionPoolConfig.default ∧
    ConnectionPoolConfig.deser (Value.vMap [("max_connections", Value.vNat 100)]) ≠
      Except.ok ConnectionPoolConfig.default ∧
    ConnectionPoolConfig.deser (Value.vMap [("max_connections", Value.vNat 100)]) =
      Except.error (DeError.missingField "min_connections") :=
  ⟨C3_amended_defaults_not_applied.1
      [("min_connections", Value.vNat 30),
       ("max_connections", Value.vNat 100),
       ("max_lifetime_seconds", Value.vInt 150),
       ("connection_timeout_ms", Value.vInt 50),
       ("idle_timeout_ms", Value.vInt 300),
       ("test_before_aquire", Value.vBool false),
       ("test_on_borrow", Value.vBool false)]
      30 100 150 50 300 false false
      rfl (by decide) rfl (by decide) rfl (by decide) rfl (by decide)
      rfl (by decide) rfl rfl rfl,
   C3_amended_defaults_not_applied.2.1
      [("max_connections", Value.vNat 100)] ConnectionPoolConfig.default
      (Or.inl rfl),
   C3_amended_defaults_not_applied.2.2
      [("max_connections", Value.vNat 100)] rfl⟩

/-- C9: the strings the database backend deserializer accepts are exactly
{"Postgres", "Sqllite"}, and serializing the default variant produces
the string "Sqllite" (not "SQLite"). -/
theorem C9_accepted_variant_strings :
    (∀ s : String,
        (∃ t, DatabaseType.deser (Value.vStr s) = Except.ok t) ↔
          (s = "Postgres" ∨ s = "Sqllite")) ∧
    DatabaseType.ser DatabaseType.default = Value.vStr "Sqllite" := by
  refine ⟨?_, rfl⟩
  intro s
  constructor
  · intro hex
    by_cases h1 : s = "Postgres"
    · exact Or.inl h1
    by_cases h2 : s = "Sqllite"
    · exact Or.inr h2
    obtain ⟨t, ht⟩ := hex
    simp [DatabaseType.deser, h1, h2] at ht
  · intro h
    rcases h with h | h
    · subst h
      exact ⟨DatabaseType.Postgres, rfl⟩
    · subst h
      exact ⟨DatabaseType.Sqllite, rfl⟩
